import Mathlib

/-!
Shallow embedding of `video_pub.py` (the StereoVideoPublisher ROS2 node).

The node owns two `cv2.VideoCapture` handles, a publish timer and a frame
counter.  We model each capture as the list of frames that remain to be
decoded (`none` from the filesystem model means `isOpened()` is false), a
published `sensor_msgs/Image` as a record of its `header.stamp`,
`header.frame_id`, the node's `frame_idx` at the moment of the publish call
(the spec's `sequence_index`), and the raw frame payload, and the rclpy
context as a `running` flag: `rclpy.shutdown()` clears it, and the executor
fires the timer callback only while it is set.
-/

/-- A decoded video frame, abstracted to an identifier. -/
abbrev Frame := Nat

/-- One published Image message event: `header.stamp`, `header.frame_id`,
the node's `frame_idx` at publish time (the spec's `sequence_index`, not a
wire field of `sensor_msgs/Image`), and the frame payload. -/
structure Msg where
  stamp : Nat
  frame_id : String
  seq : Nat
  payload : Frame
  deriving DecidableEq

/-- The mutable state of `StereoVideoPublisher` plus the rclpy context flag:
`capL`/`capR` are the frames still to be decoded from each capture,
`frame_idx` is the counter set at line 60 and bumped at line 92, and
`running` is true while the rclpy context is active (cleared by
`rclpy.shutdown()` at line 72). -/
structure NodeState where
  capL : List Frame
  capR : List Frame
  frame_idx : Nat
  running : Bool
  deriving DecidableEq

/-- `cv2.VideoCapture.read()`: returns `(ok, frame)` and advances the
stream; on an exhausted capture it returns no frame and leaves it empty. -/
def VideoCapture.read (cap : List Frame) : Option Frame × List Frame :=
  match cap with
  | [] => (none, [])
  | f :: rest => (some f, rest)

/-- The result of one timer callback invocation: the updated node state and
the messages published during it, in publish order. -/
structure TickOut where
  state : NodeState
  pubs : List Msg
  deriving DecidableEq

/-- `StereoVideoPublisher.tick` (lines 66-92): read both captures
unconditionally, then either stop via `rclpy.shutdown()` when either read
failed (publishing nothing), or stamp both messages with the same clock
value and the two fixed frame ids, publish left then right, and increment
`frame_idx`. -/
def tick (now : Nat) (s : NodeState) : TickOut :=
  let rL := VideoCapture.read s.capL
  let rR := VideoCapture.read s.capR
  match rL.1, rR.1 with
  | some fL, some fR =>
    let msgL : Msg := { stamp := now, frame_id := "left_camera", seq := s.frame_idx, payload := fL }
    let msgR : Msg := { stamp := now, frame_id := "right_camera", seq := s.frame_idx, payload := fR }
    { state := { s with capL := rL.2, capR := rR.2, frame_idx := s.frame_idx + 1 },
      pubs := [msgL, msgR] }
  | _, _ =>
    { state := { s with capL := rL.2, capR := rR.2, running := false },
      pubs := [] }

/-- One firing opportunity of the rclpy timer: the executor invokes the
`tick` callback only while the context is active; once `rclpy.shutdown()`
has run, `spin` returns and no further callbacks fire, so the state is left
untouched and nothing is read or published. -/
def step (now : Nat) (s : NodeState) : TickOut :=
  if s.running then tick now s else { state := s, pubs := [] }

/-- `rclpy.spin` driving the timer for `n` periods starting at period `k`:
the trace of callback outcomes, where `clock k` is the wall clock at the
`k`-th period. -/
def runFrom (clock : Nat → Nat) : Nat → NodeState → Nat → List TickOut
  | _, _, 0 => []
  | k, s, n + 1 =>
    let t := step (clock k) s
    t :: runFrom clock (k + 1) t.state n

/-- The node state after `n` timer periods. -/
def runEnd (clock : Nat → Nat) : Nat → NodeState → Nat → NodeState
  | _, s, 0 => s
  | k, s, n + 1 => runEnd clock (k + 1) (step (clock k) s).state n

/-- All messages published along a trace, in order. -/
def allPubs : List TickOut → List Msg
  | [] => []
  | t :: tr => t.pubs ++ allPubs tr

/-- Number of ticks of a trace that published something (each such tick
publishes exactly one left/right pair). -/
def pairTicks (tr : List TickOut) : Nat :=
  (tr.filter (fun t => !t.pubs.isEmpty)).length

/-- The node's configuration parameters (lines 24-32). -/
structure Config where
  left_video : String
  right_video : String
  rate_hz : ℚ
  start_frame : Nat

/-- A startup failure: the `RuntimeError` message raised from `__init__`,
and which captures had been successfully opened when it was raised. -/
structure AbortInfo where
  msg : String
  openedL : Bool
  openedR : Bool
  deriving DecidableEq

/-- Line 57: `self.dt = 1.0 / max(self.rate_hz, 0.1)`. -/
def period (rate_hz : ℚ) : ℚ := 1 / max rate_hz (1 / 10)

/-- The message of line 35. -/
def configErrMsg : String := "You must pass left_video and right_video parameters."

/-- `StereoVideoPublisher.__init__` (lines 20-64).  `fs` models the
filesystem and decoder: the frames decodable at a path, or `none` when
`cv2.VideoCapture(path).isOpened()` is false.  Empty paths are rejected at
line 34 before any capture is constructed; both captures are constructed at
lines 44-45 before either `isOpened()` check; `start_frame > 0` seeks both
captures (lines 53-55); on success the timer is created and `frame_idx`
starts at `start_frame` (lines 58-60). -/
def initNode (fs : String → Option (List Frame)) (cfg : Config) :
    Except AbortInfo (NodeState × ℚ) :=
  if cfg.left_video = "" ∨ cfg.right_video = "" then
    .error { msg := configErrMsg, openedL := false, openedR := false }
  else
    let oL := fs cfg.left_video
    let oR := fs cfg.right_video
    match oL, oR with
    | none, oR =>
      .error { msg := "Cannot open left video: " ++ cfg.left_video,
               openedL := false, openedR := oR.isSome }
    | some _, none =>
      .error { msg := "Cannot open right video: " ++ cfg.right_video,
               openedL := true, openedR := false }
    | some fL, some fR =>
      let fL2 := if cfg.start_frame > 0 then fL.drop cfg.start_frame else fL
      let fR2 := if cfg.start_frame > 0 then fR.drop cfg.start_frame else fR
      .ok ({ capL := fL2, capR := fR2, frame_idx := cfg.start_frame, running := true },
           period cfg.rate_hz)

/-- The observable outcome of `main` (lines 95-109). -/
structure MainResult where
  aborted : Option AbortInfo
  enteredRunning : Bool
  releasedL : Bool
  releasedR : Bool
  trace : List TickOut
  deriving DecidableEq

/-- `main` (lines 95-109): construct the node, spin, and release both
captures in the `finally` block.  When the constructor raises, the name
`node` is never bound: the exception occurs at line 97, before the
`try` block of lines 98-108 is entered, so the `finally` never runs and
neither capture is released before the process aborts. -/
def mainRun (fs : String → Option (List Frame)) (cfg : Config)
    (clock : Nat → Nat) (fuel : Nat) : MainResult :=
  match initNode fs cfg with
  | .error a =>
    { aborted := some a, enteredRunning := false,
      releasedL := false, releasedR := false, trace := [] }
  | .ok (s, _) =>
    { aborted := none, enteredRunning := true,
      releasedL := true, releasedR := true, trace := runFrom clock 0 s fuel }

/-- Whether `pat` starts `s`, on raw character lists. -/
def charsStart : List Char → List Char → Bool
  | [], _ => true
  | _ :: _, [] => false
  | a :: as, b :: bs => a == b && charsStart as bs

/-- Whether `pat` occurs somewhere in `s`, on raw character lists. -/
def charsSub (pat : List Char) : List Char → Bool
  | [] => charsStart pat []
  | c :: rest => charsStart pat (c :: rest) || charsSub pat rest

/-- Whether string `msg` mentions `pat` as a substring. -/
def mentions (pat msg : String) : Bool := charsSub pat.data msg.data

/-- Filesystem for the scenario of spec section 8: a 5-frame left video and
a 10-frame right video. -/
def fs7 : String → Option (List Frame) := fun p =>
  if p = "left.mp4" then some [0, 1, 2, 3, 4]
  else if p = "right.mp4" then some [10, 11, 12, 13, 14, 15, 16, 17, 18, 19]
  else none

/-- Configuration for that scenario: `start_frame = 3`. -/
def cfg7 : Config :=
  { left_video := "left.mp4", right_video := "right.mp4", rate_hz := 10, start_frame := 3 }

/-- The node state a successful startup produced, if any. -/
def initState (r : Except AbortInfo (NodeState × ℚ)) : Option NodeState :=
  match r with
  | .ok (s, _) => some s
  | .error _ => none

/-- The node state the scenario's startup yields: both captures seeked past
their first 3 frames, counter at 3. -/
def s7 : NodeState :=
  { capL := [3, 4], capR := [13, 14, 15, 16, 17, 18, 19], frame_idx := 3, running := true }

/-- Ten timer periods of the scenario. -/
def trace7 : List TickOut := runFrom (fun k => k) 0 s7 10

/-- Final state of the scenario after those ten periods. -/
def end7 : NodeState := runEnd (fun k => k) 0 s7 10

/-- Filesystem where only the left video opens: the right path is
unreadable. -/
def fs8 : String → Option (List Frame) := fun p =>
  if p = "left.mp4" then some [0] else none

/-- Configuration for the open-failure scenario. -/
def cfg8 : Config :=
  { left_video := "left.mp4", right_video := "right.mp4", rate_hz := 10, start_frame := 0 }

/-- A running state with a frame available on each side. -/
def sW1 : NodeState := { capL := [7], capR := [8], frame_idx := 5, running := true }

/-- A running state whose left capture is exhausted. -/
def sW2 : NodeState := { capL := [], capR := [3], frame_idx := 2, running := true }

/-- A running state with one frame on each side. -/
def sW4 : NodeState := { capL := [1], capR := [2], frame_idx := 0, running := true }

/-- A running state whose right capture is exhausted. -/
def sW5 : NodeState := { capL := [7], capR := [], frame_idx := 0, running := true }

/-- A state after `rclpy.shutdown()`, with frames still unread. -/
def sD5 : NodeState := { capL := [9], capR := [9], frame_idx := 4, running := false }

/-- A running state with an exhausted left capture and two right frames. -/
def sW10 : NodeState := { capL := [], capR := [4, 5], frame_idx := 9, running := true }

/-- A configuration whose required left path is empty. -/
def cfgW9 : Config :=
  { left_video := "", right_video := "right.mp4", rate_hz := 10, start_frame := 0 }

/-- A stopped scheduler is never re-entered: once the rclpy context is shut
down, a timer period changes nothing and publishes nothing. -/
theorem step_stopped (now : Nat) (s : NodeState) (h : s.running = false) :
    step now s = { state := s, pubs := [] } := by
  simp [step, h]

/-- From a stopped state, a whole trace publishes nothing. -/
theorem runFrom_stopped (clock : Nat → Nat) (n : Nat) :
    ∀ k s, s.running = false → allPubs (runFrom clock k s n) = [] := by
  induction n with
  | zero => intro k s _; simp [runFrom, allPubs]
  | succ n ih =>
    intro k s h
    simp only [runFrom]
    rw [step_stopped (clock k) s h]
    simp only [allPubs]
    exact ih (k + 1) s h

/-- A tick fired while either capture is exhausted publishes nothing and
shuts the context down. -/
theorem step_eos (now : Nat) (s : NodeState) (hrun : s.running = true)
    (h : s.capL = [] ∨ s.capR = []) :
    (step now s).pubs = [] ∧ (step now s).state.running = false := by
  obtain ⟨cl, cr, fi, ru⟩ := s
  simp only at hrun
  subst hrun
  rcases h with h | h <;> simp only at h <;> subst h
  · cases cr <;> simp [step, tick, VideoCapture.read]
  · cases cl <;> simp [step, tick, VideoCapture.read]

/-- One timer period never lowers the frame counter. -/
theorem frame_idx_mono_step (now : Nat) (s : NodeState) :
    s.frame_idx ≤ (step now s).state.frame_idx := by
  obtain ⟨cl, cr, fi, ru⟩ := s
  cases ru
  · simp [step]
  · cases cl <;> cases cr <;> simp [step, tick, VideoCapture.read]

/-- Along any trace, the frame counter never drops below its start value. -/
theorem frame_idx_mono_run (clock : Nat → Nat) (n : Nat) :
    ∀ k s t, t ∈ runFrom clock k s n → s.frame_idx ≤ t.state.frame_idx := by
  induction n with
  | zero => intro k s t ht; simp [runFrom] at ht
  | succ n ih =>
    intro k s t ht
    simp only [runFrom, List.mem_cons] at ht
    rcases ht with rfl | ht
    · exact frame_idx_mono_step (clock k) s
    · exact le_trans (frame_idx_mono_step (clock k) s) (ih (k + 1) _ t ht)

/-- Specialization of `runFrom_stopped` to a literal stopped record, in a
shape `simp` can match. -/
theorem allPubs_runFrom_not_running (clock : Nat → Nat) (n k : Nat)
    (cl cr : List Frame) (fi : Nat) :
    allPubs (runFrom clock k { capL := cl, capR := cr, frame_idx := fi, running := false } n) = [] :=
  runFrom_stopped clock n k _ rfl

/-- The first message a running scheduler ever publishes carries its current
frame counter as sequence index. -/
theorem first_pub_seq_aux (clock : Nat → Nat) (n : Nat) :
    ∀ k s, s.running = true → ∀ m, (allPubs (runFrom clock k s n)).head? = some m →
      m.seq = s.frame_idx := by
  induction n with
  | zero => intro k s _ m hm; simp [runFrom, allPubs] at hm
  | succ n ih =>
    intro k s hrun m hm
    obtain ⟨cl, cr, fi, ru⟩ := s
    simp only at hrun
    subst hrun
    simp only [runFrom, allPubs] at hm
    cases hcl : cl with
    | nil =>
      rw [hcl] at hm
      simp only [step, tick, VideoCapture.read, if_true] at hm
      cases cr <;> simp [allPubs_runFrom_not_running] at hm
    | cons a as =>
      cases hcr : cr with
      | nil =>
        rw [hcl, hcr] at hm
        simp only [step, tick, VideoCapture.read, if_true] at hm
        simp [allPubs_runFrom_not_running] at hm
      | cons b bs =>
        rw [hcl, hcr] at hm
        simp only [step, tick, VideoCapture.read, if_true, List.cons_append,
          List.head?_cons, Option.some.injEq] at hm
        subst hm
        rfl

/-- C1: on every tick executed while running in which both source reads
succeed, the two messages published are exactly a left message and a right
message carrying the same timestamp and the same sequence index, with the
distinct labels "left_camera" and "right_camera". -/
theorem tick_pair_same_stamp_seq_distinct_labels (now : Nat) (s : NodeState)
    (hrun : s.running = true) (hL : s.capL ≠ []) (hR : s.capR ≠ []) :
    (step now s).pubs.map Msg.stamp = [now, now] ∧
    (step now s).pubs.map Msg.seq = [s.frame_idx, s.frame_idx] ∧
    (step now s).pubs.map Msg.frame_id = ["left_camera", "right_camera"] ∧
    ("left_camera" : String) ≠ "right_camera" := by
  cases hcl : s.capL with
  | nil => exact absurd hcl hL
  | cons a as =>
    cases hcr : s.capR with
    | nil => exact absurd hcr hR
    | cons b bs =>
      refine ⟨?_, ?_, ?_, by decide⟩ <;>
        simp [step, tick, VideoCapture.read, hrun, hcl, hcr]

/-- C1 witness: a concrete running tick with a frame on each side. -/
theorem tick_pair_same_stamp_seq_distinct_labels_witness :
    (step 2 sW1).pubs.map Msg.stamp = [2, 2] ∧
    (step 2 sW1).pubs.map Msg.seq = [5, 5] ∧
    (step 2 sW1).pubs.map Msg.frame_id = ["left_camera", "right_camera"] ∧
    ("left_camera" : String) ≠ "right_camera" :=
  tick_pair_same_stamp_seq_distinct_labels 2 sW1 rfl (by decide) (by decide)

/-- C2: on a tick while running in which either read reports end-of-stream,
nothing is published on either channel and the scheduler transitions to the
terminal stopped state (a further tick on the stopped state is a no-op). -/
theorem eos_tick_no_publish_and_stopped (now : Nat) (s : NodeState)
    (hrun : s.running = true) (h : s.capL = [] ∨ s.capR = []) :
    (step now s).pubs = [] ∧ (step now s).state.running = false ∧
    (∀ now2, step now2 (step now s).state = { state := (step now s).state, pubs := [] }) :=
  ⟨(step_eos now s hrun h).1, (step_eos now s hrun h).2,
   fun now2 => step_stopped now2 _ (step_eos now s hrun h).2⟩

/-- C2 witness: a running state with an exhausted left capture. -/
theorem eos_tick_no_publish_and_stopped_witness :
    (step 0 sW2).pubs = [] ∧ (step 0 sW2).state.running = false ∧
    step 1 (step 0 sW2).state = { state := (step 0 sW2).state, pubs := [] } :=
  ⟨(eos_tick_no_publish_and_stopped 0 sW2 rfl (Or.inl rfl)).1,
   (eos_tick_no_publish_and_stopped 0 sW2 rfl (Or.inl rfl)).2.1,
   (eos_tick_no_publish_and_stopped 0 sW2 rfl (Or.inl rfl)).2.2 1⟩

/-- C3: whenever startup succeeds (both sources open), the scheduler comes
up running with its counter at `start_frame`, and the first message ever
published carries sequence index `start_frame`. -/
theorem first_pub_seq_eq_start_frame (fs : String → Option (List Frame)) (cfg : Config)
    (s : NodeState) (dt : ℚ) (h : initNode fs cfg = .ok (s, dt)) :
    s.running = true ∧ s.frame_idx = cfg.start_frame ∧
    ∀ clock n m, (allPubs (runFrom clock 0 s n)).head? = some m → m.seq = cfg.start_frame := by
  unfold initNode at h
  split at h
  · exact absurd h (by simp)
  · rcases hoL : fs cfg.left_video with _ | fL
    · simp only [hoL] at h
      exact Except.noConfusion h
    · rcases hoR : fs cfg.right_video with _ | fR
      · simp only [hoL, hoR] at h
        exact Except.noConfusion h
      · simp only [hoL, hoR, Except.ok.injEq, Prod.mk.injEq] at h
        obtain ⟨h1, -⟩ := h
        subst h1
        refine ⟨rfl, rfl, ?_⟩
        intro clock n m hm
        exact first_pub_seq_aux clock n 0 _ rfl m hm

/-- C3 witness: the section-8 scenario startup, whose first published
message has sequence index 3 = `start_frame`. -/
theorem first_pub_seq_eq_start_frame_witness :
    s7.running = true ∧ s7.frame_idx = cfg7.start_frame ∧
    ({ stamp := 0, frame_id := "left_camera", seq := 3, payload := 3 } : Msg).seq
      = cfg7.start_frame :=
  have h := first_pub_seq_eq_start_frame fs7 cfg7 s7 (period cfg7.rate_hz) rfl
  ⟨h.1, h.2.1,
   h.2.2 (fun k => k) 3 { stamp := 0, frame_id := "left_camera", seq := 3, payload := 3 } rfl⟩

/-- C4: a tick that publishes a pair advances the sequence index by exactly
1, a tick never lowers it, and along any execution trace the index never
drops below its value at any earlier point. -/
theorem seq_increment_and_monotone (now : Nat) (s : NodeState) :
    ((step now s).pubs ≠ [] → (step now s).state.frame_idx = s.frame_idx + 1) ∧
    s.frame_idx ≤ (step now s).state.frame_idx ∧
    (∀ clock k n t, t ∈ runFrom clock k s n → s.frame_idx ≤ t.state.frame_idx) := by
  refine ⟨?_, frame_idx_mono_step now s,
    fun clock k n t ht => frame_idx_mono_run clock n k s t ht⟩
  intro hp
  obtain ⟨cl, cr, fi, ru⟩ := s
  cases ru
  · simp [step] at hp
  · cases cl <;> cases cr <;> simp [step, tick, VideoCapture.read] at hp ⊢

/-- C4 witness: a successful tick from counter 0 lands on counter 1. -/
theorem seq_increment_and_monotone_witness :
    (step 0 sW4).state.frame_idx = sW4.frame_idx + 1 ∧
    sW4.frame_idx ≤ (step 0 sW4).state.frame_idx ∧
    sW4.frame_idx ≤ (step 0 sW4).state.frame_idx :=
  ⟨(seq_increment_and_monotone 0 sW4).1 (by decide),
   (seq_increment_and_monotone 0 sW4).2.1,
   (seq_increment_and_monotone 0 sW4).2.2 (fun k => k) 0 1 (step 0 sW4) (by decide)⟩

/-- C5: once either source reports end-of-stream on a running tick, that
tick publishes nothing, the scheduler is stopped, every later tick
publishes nothing, and a stopped scheduler treats any late-arriving tick as
a no-op: the state (including both capture positions) is untouched and
nothing is published. -/
theorem after_eos_no_publish_stop_terminal (now : Nat) (s : NodeState)
    (hrun : s.running = true) (h : s.capL = [] ∨ s.capR = []) :
    (step now s).pubs = [] ∧ (step now s).state.running = false ∧
    (∀ clock k n, allPubs (runFrom clock k (step now s).state n) = []) ∧
    (∀ now2 s2, s2.running = false → step now2 s2 = { state := s2, pubs := [] }) :=
  ⟨(step_eos now s hrun h).1, (step_eos now s hrun h).2,
   fun clock k n => runFrom_stopped clock n k _ (step_eos now s hrun h).2,
   fun now2 s2 h2 => step_stopped now2 s2 h2⟩

/-- C5 witness: right capture exhausted; four later periods publish
nothing, and a stopped state is left untouched by a late tick. -/
theorem after_eos_no_publish_stop_terminal_witness :
    (step 0 sW5).pubs = [] ∧ (step 0 sW5).state.running = false ∧
    allPubs (runFrom (fun k => k) 1 (step 0 sW5).state 4) = [] ∧
    step 2 sD5 = { state := sD5, pubs := [] } :=
  ⟨(after_eos_no_publish_stop_terminal 0 sW5 rfl (Or.inr rfl)).1,
   (after_eos_no_publish_stop_terminal 0 sW5 rfl (Or.inr rfl)).2.1,
   (after_eos_no_publish_stop_terminal 0 sW5 rfl (Or.inr rfl)).2.2.1 (fun k => k) 1 4,
   (after_eos_no_publish_stop_terminal 0 sW5 rfl (Or.inr rfl)).2.2.2 2 sD5 rfl⟩

/-- C6: for every configured rate, including zero and negative ones, the
effective period is 1 / max(rate_hz, 0.1), the clamped divisor is strictly
positive (no division by zero), and the period is at most 10 seconds. -/
theorem period_clamped_no_div_error (r : ℚ) :
    period r = 1 / max r (1 / 10) ∧ 0 < max r (1 / 10) ∧ period r ≤ 10 := by
  refine ⟨rfl, lt_of_lt_of_le (by norm_num) (le_max_right r (1 / 10)), ?_⟩
  have h1 : (0 : ℚ) < 1 / 10 := by norm_num
  have h2 : 1 / max r (1 / 10) ≤ 1 / (1 / 10) :=
    one_div_le_one_div_of_le h1 (le_max_right r (1 / 10))
  calc period r = 1 / max r (1 / 10) := rfl
    _ ≤ 1 / (1 / 10) := h2
    _ = 10 := by norm_num

/-- C7: the section-8 scenario (`start_frame = 3`, 5-frame left source,
10-frame right source) publishes exactly 2 pairs, with sequence indices 3
and 4, and then stops with the left source exhausted while the right one
still holds frames. -/
theorem scenario_start3_left5_right10 :
    initState (initNode fs7 cfg7) = some s7 ∧
    pairTicks trace7 = 2 ∧
    (allPubs trace7).map Msg.seq = [3, 3, 4, 4] ∧
    end7.running = false ∧ end7.capL = [] ∧ end7.capR ≠ [] := by
  decide

/-- C8 (divergence evaluated at a failing input): when the left capture
opens and the right one fails, `__init__` raises after line 50, `main`
never reaches its `try`/`finally`, and the process aborts before running
with the already-opened left handle never released. -/
theorem abort_leaves_opened_capture_unreleased :
    mainRun fs8 cfg8 (fun k => k) 5 =
      { aborted := some { msg := "Cannot open right video: right.mp4",
                          openedL := true, openedR := false },
        enteredRunning := false, releasedL := false, releasedR := false, trace := [] } := by
  decide

/-- C9: a missing/empty required path makes startup fail before either
capture is constructed, and the diagnostic message names the offending
parameter (it names both required parameters, hence the offending one). -/
theorem missing_path_fails_before_open_with_diag (fs : String → Option (List Frame))
    (cfg : Config) (h : cfg.left_video = "" ∨ cfg.right_video = "") :
    initNode fs cfg = .error { msg := configErrMsg, openedL := false, openedR := false } ∧
    mentions "left_video" configErrMsg = true ∧
    mentions "right_video" configErrMsg = true := by
  refine ⟨?_, by decide, by decide⟩
  unfold initNode
  rw [if_pos h]

/-- C9 witness: an empty left path on a filesystem with no videos at all. -/
theorem missing_path_fails_before_open_with_diag_witness :
    initNode (fun _ => none) cfgW9
      = .error { msg := configErrMsg, openedL := false, openedR := false } ∧
    mentions "left_video" configErrMsg = true ∧
    mentions "right_video" configErrMsg = true :=
  missing_path_fails_before_open_with_diag (fun _ => none) cfgW9 (Or.inl rfl)

/-- C10: on every running tick both captures are read unconditionally
before the end-of-stream check, so each capture position advances by one
tick regardless of the outcome; on a terminating tick one frame is still
consumed from the non-exhausted side even though it is never published. -/
theorem reads_unconditional_consume (now : Nat) (s : NodeState)
    (hrun : s.running = true) :
    ((step now s).state.capL = s.capL.drop 1 ∧ (step now s).state.capR = s.capR.drop 1) ∧
    (s.capL = [] → s.capR ≠ [] →
      (step now s).pubs = [] ∧ (step now s).state.capR.length + 1 = s.capR.length) ∧
    (s.capR = [] → s.capL ≠ [] →
      (step now s).pubs = [] ∧ (step now s).state.capL.length + 1 = s.capL.length) := by
  obtain ⟨cl, cr, fi, ru⟩ := s
  simp only at hrun
  subst hrun
  cases cl <;> cases cr <;>
    simp [step, tick, VideoCapture.read]

/-- C10 witness: left capture exhausted, right capture loses its head frame
on the terminating tick without anything being published. -/
theorem reads_unconditional_consume_witness :
    ((step 0 sW10).state.capL = sW10.capL.drop 1 ∧
     (step 0 sW10).state.capR = sW10.capR.drop 1) ∧
    ((step 0 sW10).pubs = [] ∧ (step 0 sW10).state.capR.length + 1 = sW10.capR.length) :=
  ⟨(reads_unconditional_consume 0 sW10 rfl).1,
   (reads_unconditional_consume 0 sW10 rfl).2.1 rfl (by decide)⟩
